import Mathlib

/-!
Shallow embedding of the budget-game allocation-and-settlement engine.

Monetary values are JavaScript numbers in the source; they are modelled as
exact rationals (ℚ).  The iteration counter is a natural number.  The
`allocations` record object is modelled as an association list whose insert
operation overwrites an existing key in place (as a JS object spread does).
-/

/-- The `stage` field of the game state (src/src/lib/allocationLogic.ts, GameState). -/
inductive Stage where
  | salary
  | location
  | budget_allocation
  | summary
  | game_over
deriving DecidableEq

/-- One recorded allocation: `{ amount: number; emoji: string }`. -/
structure BudgetAllocation where
  amount : ℚ
  emoji : String
deriving DecidableEq

/-- One random event `{ message, adjustment }` (part_001, generateRandomEvent). -/
structure RandomEvent where
  message : String
  adjustment : ℚ
deriving DecidableEq

/-- One entry of `iterationHistory` (allocationLogic.ts, IterationHistoryItem). -/
structure IterationHistoryItem where
  iteration : ℕ
  balance : ℚ
  allocations : List (String × BudgetAllocation)
  debt : ℚ
  savings : ℚ
  randomEvent : Option RandomEvent
deriving DecidableEq

/-- The GameState record of src/src/lib/allocationLogic.ts. -/
structure GameState where
  stage : Stage
  grossMonthlySalary : ℚ
  monthlySalary : ℚ
  location : String
  biweeklyIncome : ℚ
  currentBalance : ℚ
  iteration : ℕ
  currentCategoryIndex : ℕ
  allocations : List (String × BudgetAllocation)
  allocatedAmount : ℚ
  debt : ℚ
  costOfDebt : ℚ
  savings : ℚ
  housingCost : ℚ
  utilityCost : ℚ
  taxRate : ℚ
  iterationHistory : List IterationHistoryItem
deriving DecidableEq

/-- JS object spread `{...m, [k]: v}`: overwrite the key in place, else append. -/
def setAlloc : List (String × BudgetAllocation) → String → BudgetAllocation →
    List (String × BudgetAllocation)
  | [], k, v => [(k, v)]
  | (k', v') :: rest, k, v =>
      if k' = k then (k, v) :: rest else (k', v') :: setAlloc rest k v

/-- JS object read `m[k]`: `some` of the stored value, `none` when absent. -/
def getAlloc : List (String × BudgetAllocation) → String → Option BudgetAllocation
  | [], _ => none
  | (k', v') :: rest, k => if k' = k then some v' else getAlloc rest k

/-- Result record of handleNormalAllocation and handleDebtAllocation. -/
structure AllocResult where
  newGameState : GameState
  newSavings : ℚ
  newDebt : ℚ

/-- Result record of handleSavingsAllocation (adds the savingsExhausted flag). -/
structure SavingsAllocResult where
  newGameState : GameState
  newSavings : ℚ
  newDebt : ℚ
  savingsExhausted : Bool

/-- The savings/debt bookkeeping of handleNormalAllocation
(allocationLogic.ts lines 63-87): first the special savings category,
then the debt-repayment category. -/
def normalSavingsDebt (gameState : GameState) (currentAmount : ℚ) (category : String) :
    ℚ × ℚ :=
  let s := if category = "Savings & Emergency Fund"
           then gameState.savings + currentAmount else gameState.savings
  let d := gameState.debt
  if category = "Debt Repayment" then
    if currentAmount > 0 ∧ d > 0 then
      if currentAmount ≥ d then
        (s + (currentAmount - d), 0)
      else
        (s, d - currentAmount)
    else if currentAmount > 0 ∧ d = 0 then
      (s + currentAmount, d)
    else
      (s, d)
  else
    (s, d)

/-- handleNormalAllocation (allocationLogic.ts lines 48-90). -/
def handleNormalAllocation (gameState : GameState) (currentAmount : ℚ)
    (category emoji : String) : AllocResult :=
  { newGameState :=
      { gameState with
          allocations := setAlloc gameState.allocations category ⟨currentAmount, emoji⟩
          allocatedAmount := gameState.allocatedAmount + currentAmount }
    newSavings := (normalSavingsDebt gameState currentAmount category).1
    newDebt := (normalSavingsDebt gameState currentAmount category).2 }

/-- handleSavingsAllocation (allocationLogic.ts lines 93-121). -/
def handleSavingsAllocation (gameState : GameState) (savingsAmount : ℚ)
    (category emoji : String) : SavingsAllocResult :=
  let newGameState :=
    { gameState with
        allocations := setAlloc gameState.allocations category ⟨savingsAmount, emoji⟩
        allocatedAmount := gameState.allocatedAmount + savingsAmount }
  if savingsAmount > gameState.savings then
    { newGameState := newGameState
      newSavings := 0
      newDebt := gameState.debt + (savingsAmount - gameState.savings)
      savingsExhausted := true }
  else
    { newGameState := newGameState
      newSavings := gameState.savings - savingsAmount
      newDebt := gameState.debt
      savingsExhausted := decide (gameState.savings - savingsAmount ≤ 0) }

/-- handleDebtAllocation (allocationLogic.ts lines 124-149). -/
def handleDebtAllocation (gameState : GameState) (debtAmount : ℚ)
    (category emoji : String) : AllocResult :=
  { newGameState :=
      { gameState with
          allocations := setAlloc gameState.allocations category ⟨debtAmount, emoji⟩
          allocatedAmount := gameState.allocatedAmount + debtAmount }
    newSavings := gameState.savings
    newDebt := gameState.debt + debtAmount }

/-- The three allocation modes; the TS function additionally returns null. -/
inductive AllocationMode where
  | normal
  | savings
  | debt
deriving DecidableEq

/-- determineAllocationMode (allocationLogic.ts lines 152-193). -/
def determineAllocationMode (gameState : GameState) (remainingToAllocate : ℚ)
    (debtUsedThisRound : ℚ) (savingsExhausted : Bool) : Option AllocationMode :=
  if remainingToAllocate > 0 then
    some AllocationMode.normal
  else if gameState.savings > 0 ∧ savingsExhausted = false then
    some AllocationMode.savings
  else
    let maxDebtAllocation := gameState.monthlySalary / 4
    let availableDebtAllocation := max 0 (maxDebtAllocation - debtUsedThisRound)
    if availableDebtAllocation > 0 then
      some AllocationMode.debt
    else
      none

/-- getAvailableDebtAllocation (allocationLogic.ts lines 196-201). -/
def getAvailableDebtAllocation (gameState : GameState) (debtUsedThisRound : ℚ) : ℚ :=
  max 0 (gameState.monthlySalary / 4 - debtUsedThisRound)

/-- JS `x || 0` on a number: identity except that it maps 0 to 0. -/
def jsOrZero (q : ℚ) : ℚ := if q = 0 then 0 else q

/-- JS `i || 1` on a number: 0 is falsy and is replaced by 1. -/
def jsOrOne (i : ℕ) : ℕ := if i = 0 then 1 else i

/-- JS truncating division rounds toward zero. -/
def ratTrunc (q : ℚ) : ℤ := if 0 ≤ q then ⌊q⌋ else ⌈q⌉

/-- The JS remainder operator `a % n` on numbers; truncated remainder. -/
def jsRem (a n : ℚ) : ℚ := a - n * (ratTrunc (a / n) : ℚ)

/-- Placeholder for `undefined` lookups; never returned because the fixed
event table is non-empty and the source falls back to `events[0]`. -/
def defaultEvent : RandomEvent := ⟨"", 0⟩

/-- JS `events[index] || events[0]`: array indexing yields `undefined`
unless the index is a non-negative integer position inside the array. -/
def jsIndexOrFirst (l : List RandomEvent) (idx : ℚ) : RandomEvent :=
  if idx.den = 1 ∧ 0 ≤ idx.num then
    (l.get? idx.num.toNat).getD (l.getD 0 defaultEvent)
  else
    l.getD 0 defaultEvent

/-- The fixed ordered table of ten events (part_001 lines 38-49); the
utility-spike entry depends on the biweekly income. -/
def eventsList (biweeklyIncome : ℚ) : List RandomEvent :=
  [ ⟨"🚗 Oh no! Your car needs unexpected repairs.", -150⟩,
    ⟨"⚡ Surprise! Your utility bill is higher than expected.",
      -((⌊jsOrZero biweeklyIncome * (5 / 100)⌋ : ℤ) : ℚ)⟩,
    ⟨"🏥 Uh-oh! You had an unexpected medical expense.", -100⟩,
    ⟨"🎉 Great news! You received a small bonus at work!", 100⟩,
    ⟨"💫 Lucky you! You got a refund on an overcharge.", 50⟩,
    ⟨"🧥 Nice! You found some extra cash in an old jacket!", 75⟩,
    ⟨"🏠 Bummer! Your home needs an urgent repair.", -120⟩,
    ⟨"🤝 Hey! A friend finally paid you back.", 60⟩,
    ⟨"🍽️ Sweet! You got an unexpected dining discount.", 30⟩,
    ⟨"⚠️ Oh dear! You fell for a small online scam.", -80⟩ ]

/-- generateRandomEvent (part_001 lines 37-53):
`index = ((biweeklyIncome || 0) + (iteration || 1)) % events.length`,
then `events[index] || events[0]`. -/
def generateRandomEvent (biweeklyIncome : ℚ) (iteration : ℕ) : RandomEvent :=
  let events := eventsList biweeklyIncome
  let index := jsRem (jsOrZero biweeklyIncome + ((jsOrOne iteration : ℕ) : ℚ)) 10
  jsIndexOrFirst events index

lemma jsOrZero_eq (q : ℚ) : jsOrZero q = q := by
  unfold jsOrZero
  split
  · simp_all
  · rfl

lemma jsRem_natCast (m : ℕ) : jsRem (m : ℚ) 10 = ((m % 10 : ℕ) : ℚ) := by
  have hnn : (0 : ℚ) ≤ (m : ℚ) / 10 := by positivity
  have hfl : ⌊(m : ℚ) / 10⌋ = ((m / 10 : ℕ) : ℤ) := by
    rw [show (10 : ℚ) = ((10 : ℕ) : ℚ) by norm_num, Rat.floor_natCast_div_natCast]
    omega
  have hdm : ((10 * (m / 10) + m % 10 : ℕ) : ℚ) = (m : ℚ) := by
    exact_mod_cast congrArg (fun k : ℕ => (k : ℚ)) (Nat.div_add_mod m 10)
  unfold jsRem ratTrunc
  rw [if_pos hnn, hfl, Int.cast_natCast]
  push_cast at hdm
  linarith

lemma jsIndexOrFirst_natCast (l : List RandomEvent) (n : ℕ) (h : n < l.length) :
    jsIndexOrFirst l ((n : ℕ) : ℚ) = l.getD n defaultEvent := by
  unfold jsIndexOrFirst
  rw [if_pos (by simp)]
  simp [List.getD_eq_getElem?_getD, List.getElem?_eq_getElem h]

lemma generateRandomEvent_natCast (b i : ℕ) :
    generateRandomEvent (b : ℚ) i = (eventsList b).getD ((b + jsOrOne i) % 10) defaultEvent := by
  unfold generateRandomEvent
  have harg : jsOrZero (b : ℚ) + ((jsOrOne i : ℕ) : ℚ) = (((b + jsOrOne i : ℕ) : ℕ) : ℚ) := by
    rw [jsOrZero_eq]
    push_cast
    ring
  rw [harg, jsRem_natCast, jsIndexOrFirst_natCast]
  have : (eventsList (b : ℚ)).length = 10 := by rfl
  rw [this]
  exact Nat.mod_lt _ (by norm_num)

example : (generateRandomEvent 1500 1).adjustment = -75 := by
  have h : ((1500 : ℕ) : ℚ) = 1500 := by norm_num
  rw [← h, generateRandomEvent_natCast]
  norm_num [jsOrOne, eventsList, jsOrZero_eq]

/-- The nine budget categories of part_001 lines 24-34 (name, emoji). -/
def categories : List (String × String) :=
  [ ("Transportation (Public Transit, Gas, Car Maintenance)", "🚗"),
    ("Groceries", "🛒"),
    ("Dining Out", "🍽️"),
    ("Healthcare (Insurance, Medical Expenses)", "🏥"),
    ("Entertainment (Leisure, Subscriptions, Events)", "🎮"),
    ("Internet and Phone Bills", "📱"),
    ("Miscellaneous (Clothing, Personal Care, Household Items)", "🛍️"),
    ("Savings & Emergency Fund", "💰"),
    ("Debt Repayment", "💳") ]

/-- Bi-weekly fixed costs (part_001 lines 362-364). -/
def biweeklyFixedCosts (g : GameState) : ℚ := g.housingCost / 2 + g.utilityCost / 2

/-- The balance entering the shortfall waterfall of handleNextPeriod
(part_001 lines 366-379): carry-over plus income, minus fixed costs and
discretionary spending, plus the random-event adjustment. -/
def preWaterfallBalance (g : GameState) : ℚ :=
  g.currentBalance + g.biweeklyIncome - biweeklyFixedCosts g - g.allocatedAmount +
    (generateRandomEvent (jsOrZero g.biweeklyIncome) g.iteration).adjustment

/-- The settlement-time debt-repayment reduction (part_001 lines 381-387). -/
def debtAfterRepayment (g : GameState) : ℚ :=
  match getAlloc g.allocations "Debt Repayment" with
  | some alloc =>
      if alloc.amount > 0 ∧ g.debt > 0 then max 0 (g.debt - alloc.amount) else g.debt
  | none => g.debt

/-- The negative-balance waterfall (part_001 lines 389-404), returning
(balance, savings, debt). -/
def settleWaterfall (balance savings debt : ℚ) : ℚ × ℚ × ℚ :=
  if balance < 0 then
    let shortfall := |balance|
    if savings ≥ shortfall then
      (0, savings - shortfall, debt)
    else
      (0, 0, debt + (shortfall - savings))
  else
    (balance, savings, debt)

/-- The debt remaining after the waterfall step of a settlement. -/
def postWaterfallDebt (g : GameState) : ℚ :=
  (settleWaterfall (preWaterfallBalance g) g.savings (debtAfterRepayment g)).2.2

/-- Monthly interest accrual (part_001 lines 406-410): 15 percent APR,
added when the pre-increment iteration is even and debt is positive. -/
def applyMonthlyInterest (iteration : ℕ) (debt : ℚ) : ℚ :=
  if iteration % 2 = 0 ∧ debt > 0 then debt + debt * (15 / 100) / 12 else debt

/-- handleNextPeriod (part_001 lines 361-429): period settlement. -/
def handleNextPeriod (g : GameState) : GameState :=
  let w := settleWaterfall (preWaterfallBalance g) g.savings (debtAfterRepayment g)
  let newDebt := applyMonthlyInterest g.iteration w.2.2
  let newIteration := g.iteration + 1
  { g with
      currentBalance := w.1
      debt := newDebt
      savings := w.2.1
      costOfDebt := newDebt * (15 / 100) / 26
      iteration := newIteration
      currentCategoryIndex := 0
      allocations := []
      allocatedAmount := 0
      stage := if newIteration > 12 then Stage.game_over else Stage.budget_allocation }

/-- One full settlement as the orchestrator runs it: handleNextPeriod on the
game state, plus the `setDebtUsedThisRound(0)` reset (part_001 line 428). -/
def settleRound (p : GameState × ℚ) : GameState × ℚ := (handleNextPeriod p.1, 0)

/-- The initial GameState (part_001 lines 117-135). -/
def initialGameState : GameState :=
  { stage := Stage.salary
    grossMonthlySalary := 0
    monthlySalary := 0
    location := ""
    biweeklyIncome := 0
    currentBalance := 0
    iteration := 1
    currentCategoryIndex := 0
    allocations := []
    allocatedAmount := 0
    debt := 0
    costOfDebt := 0
    savings := 0
    housingCost := 0
    utilityCost := 0
    taxRate := 25
    iterationHistory := [] }

/-- handleSalarySubmit (part_001 lines 214-222). -/
def applySalary (g : GameState) (gross : ℚ) : GameState :=
  { g with grossMonthlySalary := gross, stage := Stage.location }

/-- handleContinueWithCosts (part_001 lines 249-273): lock in the location
estimates and derive the net monthly and bi-weekly income. -/
def applyCosts (g : GameState) (loc : String) (housing utility taxRate : ℚ) : GameState :=
  { g with
      location := loc
      monthlySalary := g.grossMonthlySalary * (1 - taxRate / 100)
      biweeklyIncome := g.grossMonthlySalary * (1 - taxRate / 100) / 2
      currentBalance := 0
      housingCost := housing
      utilityCost := utility
      taxRate := taxRate
      stage := Stage.budget_allocation }

/-- The discretionary room shown by the allocation screen
(part_001 lines 705-716): period income minus fixed costs, current debt
interest, and what was already allocated. -/
def remainingToAllocate (g : GameState) : ℚ :=
  (if g.iteration = 1 then g.biweeklyIncome else g.currentBalance + g.biweeklyIncome) -
    biweeklyFixedCosts g - g.costOfDebt - g.allocatedAmount

/-- The tail of handleAllocationSubmit (part_001 lines 331-351): merge the
applier result into the game state, advance the category index, and move to
the summary stage once all nine categories are allocated. -/
def finishAllocation (prev ng : GameState) (newSavings newDebt : ℚ) : GameState :=
  let newCategoryIndex := prev.currentCategoryIndex + 1
  if newCategoryIndex ≥ categories.length then
    { ng with
        currentCategoryIndex := newCategoryIndex
        savings := newSavings
        debt := newDebt
        costOfDebt := newDebt * (15 / 100) / 26
        stage := Stage.summary }
  else
    { ng with
        currentCategoryIndex := newCategoryIndex
        savings := newSavings
        debt := newDebt
        costOfDebt := newDebt * (15 / 100) / 26 }

/-- handleAllocationSubmit in normal mode (part_001 lines 323-329). -/
def submitNormal (g : GameState) (amount : ℚ) (cat em : String) : GameState :=
  let r := handleNormalAllocation g amount cat em
  finishAllocation g r.newGameState r.newSavings r.newDebt

/-- handleAllocationSubmit in savings mode (part_001 lines 298-312). -/
def submitSavings (g : GameState) (amount : ℚ) (cat em : String) : GameState :=
  let r := handleSavingsAllocation g amount cat em
  finishAllocation g r.newGameState r.newSavings r.newDebt

/-- handleAllocationSubmit in debt mode (part_001 lines 313-322); the caller
additionally adds the amount to debtUsedThisRound. -/
def submitDebt (g : GameState) (amount : ℚ) (cat em : String) : GameState :=
  let r := handleDebtAllocation g amount cat em
  finishAllocation g r.newGameState r.newSavings r.newDebt

/-- States (paired with the round-local debtUsedThisRound counter) reachable
from the initial GameState by the salary and cost setup, normal, savings-funded
and debt-funded allocations of non-negative amounts within the advertised
capacity of each funding source, and period settlements. -/
inductive Reach : GameState → ℚ → Prop where
  | init : Reach initialGameState 0
  | salary (g : GameState) (d gross : ℚ) :
      Reach g d → 0 < gross → Reach (applySalary g gross) d
  | costs (g : GameState) (d : ℚ) (loc : String) (housing utility taxRate : ℚ) :
      Reach g d → Reach (applyCosts g loc housing utility taxRate) d
  | allocNormal (g : GameState) (d a : ℚ) (cat em : String) :
      Reach g d → 0 ≤ a → a ≤ remainingToAllocate g →
      Reach (submitNormal g a cat em) d
  | allocSavings (g : GameState) (d a : ℚ) (cat em : String) :
      Reach g d → 0 ≤ a → a ≤ g.savings →
      Reach (submitSavings g a cat em) d
  | allocDebt (g : GameState) (d a : ℚ) (cat em : String) :
      Reach g d → 0 ≤ a → a ≤ getAvailableDebtAllocation g d →
      Reach (submitDebt g a cat em) (d + a)
  | settle (g : GameState) (d : ℚ) :
      Reach g d → Reach (handleNextPeriod g) 0

lemma getAlloc_setAlloc_self (m : List (String × BudgetAllocation)) (k : String)
    (v : BudgetAllocation) : getAlloc (setAlloc m k v) k = some v := by
  induction m with
  | nil => simp [setAlloc, getAlloc]
  | cons hd tl ih =>
      by_cases h : hd.1 = k
      · simp [setAlloc, getAlloc, h]
      · simpa [setAlloc, getAlloc, h] using ih

lemma finishAllocation_savings (prev ng : GameState) (s d : ℚ) :
    (finishAllocation prev ng s d).savings = s := by
  unfold finishAllocation
  dsimp only
  split <;> rfl

lemma finishAllocation_debt (prev ng : GameState) (s d : ℚ) :
    (finishAllocation prev ng s d).debt = d := by
  unfold finishAllocation
  dsimp only
  split <;> rfl

lemma normalSavingsDebt_nonneg (g : GameState) (a : ℚ) (c : String)
    (hs : 0 ≤ g.savings) (hd : 0 ≤ g.debt) (ha : 0 ≤ a) :
    0 ≤ (normalSavingsDebt g a c).1 ∧ 0 ≤ (normalSavingsDebt g a c).2 := by
  unfold normalSavingsDebt
  dsimp only
  split_ifs <;> constructor <;> dsimp only <;> first | linarith | assumption

lemma savingsAlloc_nonneg (g : GameState) (a : ℚ) (cat em : String)
    (hs : 0 ≤ g.savings) (hd : 0 ≤ g.debt) (ha : 0 ≤ a) :
    0 ≤ (handleSavingsAllocation g a cat em).newSavings ∧
    0 ≤ (handleSavingsAllocation g a cat em).newDebt := by
  unfold handleSavingsAllocation
  dsimp only
  split_ifs with h <;> constructor <;> dsimp only <;> linarith

lemma settleWaterfall_nonneg (b s d : ℚ) (hs : 0 ≤ s) (hd : 0 ≤ d) :
    0 ≤ (settleWaterfall b s d).2.1 ∧ 0 ≤ (settleWaterfall b s d).2.2 := by
  unfold settleWaterfall
  dsimp only
  split_ifs with h1 h2 <;> constructor <;> dsimp only
  · linarith [abs_nonneg b]
  · exact hd
  · exact le_refl 0
  · have : |b| = -b := abs_of_neg h1
    linarith
  · exact hs
  · exact hd

lemma debtAfterRepayment_nonneg (g : GameState) (hd : 0 ≤ g.debt) :
    0 ≤ debtAfterRepayment g := by
  unfold debtAfterRepayment
  split
  · split_ifs
    · exact le_max_left 0 _
    · exact hd
  · exact hd

lemma applyMonthlyInterest_nonneg (i : ℕ) (d : ℚ) (hd : 0 ≤ d) :
    0 ≤ applyMonthlyInterest i d := by
  unfold applyMonthlyInterest
  split_ifs with h
  · nlinarith [h.2]
  · exact hd

lemma handleNextPeriod_savings_debt_nonneg (g : GameState)
    (hs : 0 ≤ g.savings) (hd : 0 ≤ g.debt) :
    0 ≤ (handleNextPeriod g).savings ∧ 0 ≤ (handleNextPeriod g).debt := by
  have h1 := debtAfterRepayment_nonneg g hd
  have h2 := settleWaterfall_nonneg (preWaterfallBalance g) g.savings (debtAfterRepayment g) hs h1
  refine ⟨h2.1, ?_⟩
  exact applyMonthlyInterest_nonneg _ _ h2.2

/-- C1: every state reachable through setup, capacity-respecting non-negative
allocations and period settlements keeps savings and debt non-negative. -/
theorem reach_savings_debt_nonneg (g : GameState) (d : ℚ) (h : Reach g d) :
    0 ≤ g.savings ∧ 0 ≤ g.debt := by
  induction h with
  | init => exact ⟨le_refl 0, le_refl 0⟩
  | salary g d gross _ _ ih => exact ih
  | costs g d loc housing utility taxRate _ ih => exact ih
  | allocNormal g d a cat em _ ha _ ih =>
      unfold submitNormal handleNormalAllocation
      dsimp only
      rw [finishAllocation_savings, finishAllocation_debt]
      exact normalSavingsDebt_nonneg g a cat ih.1 ih.2 ha
  | allocSavings g d a cat em _ ha _ ih =>
      unfold submitSavings
      dsimp only
      rw [finishAllocation_savings, finishAllocation_debt]
      exact savingsAlloc_nonneg g a cat em ih.1 ih.2 ha
  | allocDebt g d a cat em _ ha _ ih =>
      unfold submitDebt handleDebtAllocation
      dsimp only
      rw [finishAllocation_savings, finishAllocation_debt]
      exact ⟨ih.1, by linarith [ih.2]⟩
  | settle g d _ ih => exact handleNextPeriod_savings_debt_nonneg g ih.1 ih.2

/-- Witness for C1: a concrete four-step run (salary, costs, one normal
allocation, one settlement) reaching a state with non-negative savings and
debt. -/
theorem reach_savings_debt_nonneg_witness :
    0 ≤ (handleNextPeriod (submitNormal (applyCosts (applySalary initialGameState 4000)
        "Testville" 1200 200 25) 100 "Groceries" "🛒")).savings ∧
    0 ≤ (handleNextPeriod (submitNormal (applyCosts (applySalary initialGameState 4000)
        "Testville" 1200 200 25) 100 "Groceries" "🛒")).debt :=
  reach_savings_debt_nonneg _ 0
    (Reach.settle _ 0
      (Reach.allocNormal _ 0 100 "Groceries" "🛒"
        (Reach.costs _ 0 "Testville" 1200 200 25
          (Reach.salary _ 0 4000 Reach.init (by norm_num)))
        (by norm_num)
        (by norm_num [remainingToAllocate, applyCosts, applySalary, initialGameState,
              biweeklyFixedCosts])))

/-- The frame of an applier: every GameState field other than the
allocations map and the allocatedAmount sum is unchanged. -/
def FramePreserved (g ng : GameState) : Prop :=
  ng.stage = g.stage ∧ ng.grossMonthlySalary = g.grossMonthlySalary ∧
  ng.monthlySalary = g.monthlySalary ∧ ng.location = g.location ∧
  ng.biweeklyIncome = g.biweeklyIncome ∧ ng.currentBalance = g.currentBalance ∧
  ng.iteration = g.iteration ∧ ng.currentCategoryIndex = g.currentCategoryIndex ∧
  ng.debt = g.debt ∧ ng.costOfDebt = g.costOfDebt ∧ ng.savings = g.savings ∧
  ng.housingCost = g.housingCost ∧ ng.utilityCost = g.utilityCost ∧
  ng.taxRate = g.taxRate ∧ ng.iterationHistory = g.iterationHistory

/-- C10: each of the three appliers returns a newGameState that differs from
the input only in allocations and allocatedAmount; in particular its savings
and debt fields still hold the old values, the updated ones being delivered
only through the separate newSavings and newDebt results. -/
theorem appliers_frame (g : GameState) (a : ℚ) (cat em : String) :
    FramePreserved g (handleNormalAllocation g a cat em).newGameState ∧
    FramePreserved g (handleSavingsAllocation g a cat em).newGameState ∧
    FramePreserved g (handleDebtAllocation g a cat em).newGameState := by
  refine ⟨?_, ?_, ?_⟩
  · unfold handleNormalAllocation FramePreserved
    dsimp only
    exact ⟨rfl, rfl, rfl, rfl, rfl, rfl, rfl, rfl, rfl, rfl, rfl, rfl, rfl, rfl, rfl⟩
  · unfold handleSavingsAllocation FramePreserved
    dsimp only
    split_ifs <;>
      exact ⟨rfl, rfl, rfl, rfl, rfl, rfl, rfl, rfl, rfl, rfl, rfl, rfl, rfl, rfl, rfl⟩
  · unfold handleDebtAllocation FramePreserved
    dsimp only
    exact ⟨rfl, rfl, rfl, rfl, rfl, rfl, rfl, rfl, rfl, rfl, rfl, rfl, rfl, rfl, rfl⟩

/-- A concrete mid-game state used by concrete instantiations: net monthly
salary 3000 from gross 4000 at tax rate 25, housing 1200 and utility 200. -/
def sampleState : GameState :=
  { stage := Stage.budget_allocation
    grossMonthlySalary := 4000
    monthlySalary := 3000
    location := "Testville"
    biweeklyIncome := 1500
    currentBalance := 0
    iteration := 1
    currentCategoryIndex := 0
    allocations := []
    allocatedAmount := 0
    debt := 0
    costOfDebt := 0
    savings := 0
    housingCost := 1200
    utilityCost := 200
    taxRate := 25
    iterationHistory := [] }

/-- Counterexample for C6: the appliers do not clamp; a normal allocation of
-50 is recorded as -50 and decreases allocatedAmount. -/
theorem appliers_clamp_counterexample :
    (handleNormalAllocation sampleState (-50) "Groceries" "🛒").newGameState.allocatedAmount
        < sampleState.allocatedAmount ∧
    getAlloc (handleNormalAllocation sampleState (-50) "Groceries"
        "🛒").newGameState.allocations "Groceries" = some ⟨-50, "🛒"⟩ ∧
    ((-50 : ℚ) ≠ max 0 (-50)) := by
  refine ⟨?_, ?_, by norm_num⟩
  · show sampleState.allocatedAmount + (-50) < sampleState.allocatedAmount
    norm_num [sampleState]
  · exact getAlloc_setAlloc_self _ _ _

/-- C6 as amended: each applier records the raw, unclamped amount under the
category identifier and adds exactly that raw amount to allocatedAmount,
so a negative amount yields a negative record and decreases allocatedAmount. -/
theorem appliers_record_raw_amount (g : GameState) (a : ℚ) (cat em : String) :
    (getAlloc (handleNormalAllocation g a cat em).newGameState.allocations cat
        = some ⟨a, em⟩ ∧
     (handleNormalAllocation g a cat em).newGameState.allocatedAmount
        = g.allocatedAmount + a) ∧
    (getAlloc (handleSavingsAllocation g a cat em).newGameState.allocations cat
        = some ⟨a, em⟩ ∧
     (handleSavingsAllocation g a cat em).newGameState.allocatedAmount
        = g.allocatedAmount + a) ∧
    (getAlloc (handleDebtAllocation g a cat em).newGameState.allocations cat
        = some ⟨a, em⟩ ∧
     (handleDebtAllocation g a cat em).newGameState.allocatedAmount
        = g.allocatedAmount + a) := by
  refine ⟨⟨getAlloc_setAlloc_self _ _ _, rfl⟩, ?_, ⟨getAlloc_setAlloc_self _ _ _, rfl⟩⟩
  unfold handleSavingsAllocation
  dsimp only
  split_ifs <;> exact ⟨getAlloc_setAlloc_self _ _ _, rfl⟩

/-- C7: the savings-funded applier debits savings by the amount, floors at
zero with the excess becoming debt, and reports exhaustion exactly when the
resulting savings are zero (including exact exhaustion). -/
theorem savings_applier_debit (g : GameState) (a : ℚ) (cat em : String) (ha : 0 ≤ a) :
    (a ≤ g.savings →
      (handleSavingsAllocation g a cat em).newSavings = g.savings - a ∧
      (handleSavingsAllocation g a cat em).newDebt = g.debt) ∧
    (g.savings < a →
      (handleSavingsAllocation g a cat em).newSavings = 0 ∧
      (handleSavingsAllocation g a cat em).newDebt = g.debt + (a - g.savings)) ∧
    ((handleSavingsAllocation g a cat em).savingsExhausted = true ↔
      (handleSavingsAllocation g a cat em).newSavings = 0) := by
  unfold handleSavingsAllocation
  dsimp only
  split_ifs with h
  · refine ⟨fun hle => absurd h (not_lt.mpr hle), fun _ => ⟨rfl, rfl⟩, ?_⟩
    simp
  · have hle : a ≤ g.savings := not_lt.mp h
    refine ⟨fun _ => ⟨rfl, rfl⟩, fun hlt => absurd hlt (not_lt.mpr hle), ?_⟩
    simp only [decide_eq_true_eq]
    constructor
    · intro h2
      linarith
    · intro h2
      linarith

/-- Witness for C7 at the exact-exhaustion point: allocating 150 from savings
of 150. -/
theorem savings_applier_debit_witness :
    (0 : ℚ) ≤ 150 ∧
    ((150 : ℚ) ≤ ({ sampleState with savings := 150 } : GameState).savings →
      (handleSavingsAllocation { sampleState with savings := 150 } 150 "Groceries"
        "🛒").newSavings = ({ sampleState with savings := 150 } : GameState).savings - 150 ∧
      (handleSavingsAllocation { sampleState with savings := 150 } 150 "Groceries"
        "🛒").newDebt = ({ sampleState with savings := 150 } : GameState).debt) ∧
    (({ sampleState with savings := 150 } : GameState).savings < 150 →
      (handleSavingsAllocation { sampleState with savings := 150 } 150 "Groceries"
        "🛒").newSavings = 0 ∧
      (handleSavingsAllocation { sampleState with savings := 150 } 150 "Groceries"
        "🛒").newDebt = ({ sampleState with savings := 150 } : GameState).debt +
          (150 - ({ sampleState with savings := 150 } : GameState).savings)) ∧
    ((handleSavingsAllocation { sampleState with savings := 150 } 150 "Groceries"
        "🛒").savingsExhausted = true ↔
      (handleSavingsAllocation { sampleState with savings := 150 } 150 "Groceries"
        "🛒").newSavings = 0) :=
  ⟨by norm_num,
   savings_applier_debit { sampleState with savings := 150 } 150 "Groceries" "🛒"
     (by norm_num)⟩

/-- C3: the Allocation Mode Resolver decides by first match: normal whenever
remainingToAllocate is positive, else savings whenever savings are positive
and not exhausted, else debt whenever the round cap (a quarter of monthly
salary) is not yet used up, else none. -/
theorem determineAllocationMode_first_match (g : GameState) (r d : ℚ) (ex : Bool) :
    (0 < r → determineAllocationMode g r d ex = some AllocationMode.normal) ∧
    (r ≤ 0 → 0 < g.savings → ex = false →
      determineAllocationMode g r d ex = some AllocationMode.savings) ∧
    (r ≤ 0 → ¬(0 < g.savings ∧ ex = false) →
      0 < max 0 (g.monthlySalary / 4 - d) →
      determineAllocationMode g r d ex = some AllocationMode.debt) ∧
    (r ≤ 0 → ¬(0 < g.savings ∧ ex = false) →
      max 0 (g.monthlySalary / 4 - d) ≤ 0 →
      determineAllocationMode g r d ex = none) := by
  unfold determineAllocationMode
  refine ⟨?_, ?_, ?_, ?_⟩
  · intro h
    rw [if_pos h]
  · intro h1 h2 h3
    rw [if_neg (not_lt.mpr h1), if_pos ⟨h2, h3⟩]
  · intro h1 h2 h3
    rw [if_neg (not_lt.mpr h1), if_neg h2]
    dsimp only
    rw [if_pos h3]
  · intro h1 h2 h3
    rw [if_neg (not_lt.mpr h1), if_neg h2]
    dsimp only
    rw [if_neg (not_lt.mpr h3)]

/-- Witness for C3: with discretionary room 1 remaining and savings 500 the
Resolver still chooses normal mode. -/
theorem determineAllocationMode_first_match_witness :
    (0 : ℚ) < 1 ∧
    determineAllocationMode { sampleState with savings := 500 } 1 0 false =
      some AllocationMode.normal :=
  ⟨by norm_num,
   (determineAllocationMode_first_match { sampleState with savings := 500 } 1 0 false).1
     (by norm_num)⟩

lemma handleNextPeriod_currentBalance (g : GameState) :
    (handleNextPeriod g).currentBalance =
      (settleWaterfall (preWaterfallBalance g) g.savings (debtAfterRepayment g)).1 := rfl

lemma handleNextPeriod_savings (g : GameState) :
    (handleNextPeriod g).savings =
      (settleWaterfall (preWaterfallBalance g) g.savings (debtAfterRepayment g)).2.1 := rfl

lemma handleNextPeriod_debt (g : GameState) :
    (handleNextPeriod g).debt = applyMonthlyInterest g.iteration (postWaterfallDebt g) := rfl

lemma handleNextPeriod_iteration (g : GameState) :
    (handleNextPeriod g).iteration = g.iteration + 1 := rfl

lemma settleWaterfall_neg (b s d : ℚ) (hb : b < 0) :
    settleWaterfall b s d = if -b ≤ s then (0, s - -b, d) else (0, 0, d + (-b - s)) := by
  unfold settleWaterfall
  dsimp only
  rw [if_pos hb, abs_of_neg hb]

/-- C2: when the settlement balance is negative, the shortfall is drawn from
savings first (savings decreasing by exactly the shortfall and the waterfall
leaving debt untouched when savings cover it), any remainder becomes debt,
and the balance is floored to exactly 0; in particular a settlement entered
with balance -200 and savings 150 ends the waterfall with savings 0, debt
increased by 50 and balance 0. -/
theorem settlement_negative_balance_waterfall :
    (∀ g : GameState, preWaterfallBalance g < 0 →
      (handleNextPeriod g).currentBalance = 0 ∧
      (-(preWaterfallBalance g) ≤ g.savings →
        (handleNextPeriod g).savings = g.savings + preWaterfallBalance g ∧
        postWaterfallDebt g = debtAfterRepayment g) ∧
      (g.savings < -(preWaterfallBalance g) →
        (handleNextPeriod g).savings = 0 ∧
        postWaterfallDebt g =
          debtAfterRepayment g + (-(preWaterfallBalance g) - g.savings))) ∧
    (∀ d : ℚ, settleWaterfall (-200) 150 d = (0, 0, d + 50)) := by
  constructor
  · intro g hb
    have hw := settleWaterfall_neg (preWaterfallBalance g) g.savings (debtAfterRepayment g) hb
    refine ⟨?_, ?_, ?_⟩
    · rw [handleNextPeriod_currentBalance, hw]
      split_ifs <;> rfl
    · intro hs
      constructor
      · rw [handleNextPeriod_savings, hw, if_pos hs]
        dsimp only
        ring
      · unfold postWaterfallDebt
        rw [hw, if_pos hs]
    · intro hs
      have hs' : ¬(-(preWaterfallBalance g) ≤ g.savings) := not_le.mpr hs
      constructor
      · rw [handleNextPeriod_savings, hw, if_neg hs']
      · unfold postWaterfallDebt
        rw [hw, if_neg hs']
  · intro d
    rw [settleWaterfall_neg _ _ _ (by norm_num : (-200 : ℚ) < 0),
      if_neg (by norm_num)]
    norm_num

/-- A concrete state entering settlement with balance -200 and savings 150. -/
def waterfallState : GameState :=
  { sampleState with
      currentBalance := -200
      savings := 150
      biweeklyIncome := 0
      housingCost := 0
      utilityCost := 0 }

lemma generateRandomEvent_zero_adjustment :
    (generateRandomEvent (jsOrZero waterfallState.biweeklyIncome)
      waterfallState.iteration).adjustment = 0 := by
  have h0 : jsOrZero waterfallState.biweeklyIncome = ((0 : ℕ) : ℚ) := by
    rw [jsOrZero_eq]
    norm_num [waterfallState, sampleState]
  rw [h0]
  have h1 : waterfallState.iteration = 1 := rfl
  rw [h1, generateRandomEvent_natCast]
  norm_num [jsOrOne, eventsList, jsOrZero_eq]

lemma waterfallState_preBalance : preWaterfallBalance waterfallState = -200 := by
  unfold preWaterfallBalance biweeklyFixedCosts
  rw [generateRandomEvent_zero_adjustment]
  norm_num [waterfallState, sampleState]

/-- Witness for C2: the concrete -200/150 settlement has its balance floored
to zero. -/
theorem settlement_negative_balance_waterfall_witness :
    preWaterfallBalance waterfallState < 0 ∧
    (handleNextPeriod waterfallState).currentBalance = 0 :=
  ⟨by rw [waterfallState_preBalance]; norm_num,
   (settlement_negative_balance_waterfall.1 waterfallState
     (by rw [waterfallState_preBalance]; norm_num)).1⟩

/-- C5: a settlement accrues monthly interest on debt exactly when the
pre-increment iteration is even and the post-waterfall debt is positive;
otherwise the debt leaves the settlement as the waterfall produced it. -/
theorem interest_iff_even_pre_increment (g : GameState) :
    (g.iteration % 2 = 0 ∧ 0 < postWaterfallDebt g →
      (handleNextPeriod g).debt =
        postWaterfallDebt g + postWaterfallDebt g * (15 / 100) / 12) ∧
    (¬(g.iteration % 2 = 0 ∧ 0 < postWaterfallDebt g) →
      (handleNextPeriod g).debt = postWaterfallDebt g) := by
  constructor <;> intro h <;> rw [handleNextPeriod_debt] <;> unfold applyMonthlyInterest
  · rw [if_pos h]
  · rw [if_neg h]

/-- A concrete state entering settlement at even iteration 2 with debt 1000
and a balance that stays non-negative. -/
def interestState : GameState :=
  { sampleState with
      iteration := 2
      debt := 1000
      currentBalance := 100
      biweeklyIncome := 0
      housingCost := 0
      utilityCost := 0 }

lemma interestState_postDebt : postWaterfallDebt interestState = 1000 := by
  have h0 : jsOrZero interestState.biweeklyIncome = ((0 : ℕ) : ℚ) := by
    rw [jsOrZero_eq]
    norm_num [interestState, sampleState]
  have hadj : (generateRandomEvent (jsOrZero interestState.biweeklyIncome)
      interestState.iteration).adjustment = -100 := by
    rw [h0, show interestState.iteration = 2 from rfl, generateRandomEvent_natCast]
    norm_num [jsOrOne, eventsList, jsOrZero_eq]
  have hpre : preWaterfallBalance interestState = 0 := by
    unfold preWaterfallBalance biweeklyFixedCosts
    rw [hadj]
    norm_num [interestState, sampleState]
  have hrep : debtAfterRepayment interestState = 1000 := by
    unfold debtAfterRepayment
    simp [interestState, sampleState, getAlloc]
  unfold postWaterfallDebt
  rw [hpre, hrep]
  unfold settleWaterfall
  norm_num

/-- Witness for C5: at pre-increment iteration 2 with post-waterfall debt
1000 the settlement adds one month of interest. -/
theorem interest_iff_even_pre_increment_witness :
    (interestState.iteration % 2 = 0 ∧ 0 < postWaterfallDebt interestState) ∧
    (handleNextPeriod interestState).debt =
      postWaterfallDebt interestState +
        postWaterfallDebt interestState * (15 / 100) / 12 :=
  ⟨⟨rfl, by rw [interestState_postDebt]; norm_num⟩,
   (interest_iff_even_pre_increment interestState).1
     ⟨rfl, by rw [interestState_postDebt]; norm_num⟩⟩

lemma settleRound_fst (p : GameState × ℚ) : (settleRound p).1 = handleNextPeriod p.1 := rfl

lemma settleRound_stage (p : GameState × ℚ) :
    (settleRound p).1.stage =
      if p.1.iteration + 1 > 12 then Stage.game_over else Stage.budget_allocation := rfl

lemma settleRound_iterate_iteration (n : ℕ) (p : GameState × ℚ) :
    ((settleRound^[n]) p).1.iteration = p.1.iteration + n := by
  induction n with
  | zero => simp
  | succ k ih =>
      rw [Function.iterate_succ_apply', settleRound_fst, handleNextPeriod_iteration, ih]
      omega

/-- C9: every settlement advances the iteration by one, resets the category
index, the allocations map, the allocated sum and the round-local debt
counter, and selects game_over exactly when the new iteration exceeds 12;
twelve settlements from iteration 1 reach iteration 13 and game_over. -/
theorem settlement_advances_round :
    (∀ (g : GameState) (d : ℚ),
      (settleRound (g, d)).1.iteration = g.iteration + 1 ∧
      (settleRound (g, d)).1.currentCategoryIndex = 0 ∧
      (settleRound (g, d)).1.allocations = [] ∧
      (settleRound (g, d)).1.allocatedAmount = 0 ∧
      (settleRound (g, d)).2 = 0 ∧
      (settleRound (g, d)).1.stage =
        (if g.iteration + 1 > 12 then Stage.game_over else Stage.budget_allocation)) ∧
    (∀ (g : GameState) (d : ℚ), g.iteration = 1 →
      ((settleRound^[12]) (g, d)).1.iteration = 13 ∧
      ((settleRound^[12]) (g, d)).1.stage = Stage.game_over) := by
  constructor
  · exact fun g d => ⟨rfl, rfl, rfl, rfl, rfl, rfl⟩
  · intro g d h1
    have h12 : ((settleRound)^[12]) (g, d) = settleRound (((settleRound)^[11]) (g, d)) :=
      Function.iterate_succ_apply' settleRound 11 (g, d)
    have h11 : (((settleRound)^[11]) (g, d)).1.iteration = 12 := by
      rw [settleRound_iterate_iteration, h1]
    constructor
    · rw [settleRound_iterate_iteration, h1]
    · rw [h12, settleRound_stage, h11]
      norm_num

/-- Witness for C9: twelve settlements of the sample state (iteration 1). -/
theorem settlement_advances_round_witness :
    sampleState.iteration = 1 ∧
    ((settleRound^[12]) (sampleState, 0)).1.iteration = 13 ∧
    ((settleRound^[12]) (sampleState, 0)).1.stage = Stage.game_over :=
  ⟨rfl, settlement_advances_round.2 sampleState 0 rfl⟩

/-- Counterexample for C8: with biweeklyIncome 1 and iteration 0 the code
substitutes 1 for the falsy iteration, landing on table entry 2 (medical
expense) instead of the claimed entry (1 + 0) mod 10 = 1 (utility spike). -/
theorem generateRandomEvent_index_counterexample :
    generateRandomEvent 1 0 = (eventsList 1).getD 2 defaultEvent ∧
    generateRandomEvent 1 0 ≠ (eventsList 1).getD ((1 + 0) % 10) defaultEvent := by
  have h := generateRandomEvent_natCast 1 0
  simp only [Nat.cast_one] at h
  constructor
  · rw [h]
    norm_num [jsOrOne]
  · rw [h]
    intro heq
    have hmsg := congrArg RandomEvent.message heq
    norm_num [jsOrOne, eventsList, defaultEvent] at hmsg
    exact absurd hmsg (by decide)

/-- C8 as amended: for natural-number inputs the generator returns the table
entry at index (biweeklyIncome + iteration) mod 10 whenever iteration ≥ 1;
a zero iteration is replaced by 1 before indexing; the function is a pure
deterministic function of its inputs; and the ten adjustments (at biweekly
income 100) are the fixed signed values of the table. -/
theorem generateRandomEvent_index (b i : ℕ) :
    (1 ≤ i →
      generateRandomEvent (b : ℚ) i = (eventsList b).getD ((b + i) % 10) defaultEvent) ∧
    (i = 0 →
      generateRandomEvent (b : ℚ) i = (eventsList b).getD ((b + 1) % 10) defaultEvent) ∧
    generateRandomEvent (b : ℚ) i = generateRandomEvent (b : ℚ) i ∧
    (eventsList (100 : ℚ)).map RandomEvent.adjustment =
      [-150, -5, -100, 100, 50, 75, -120, 60, 30, -80] := by
  refine ⟨?_, ?_, rfl, ?_⟩
  · intro hi
    rw [generateRandomEvent_natCast]
    have hj : jsOrOne i = i := by
      unfold jsOrOne
      rw [if_neg (by omega)]
    rw [hj]
  · intro hi
    subst hi
    rw [generateRandomEvent_natCast, show jsOrOne 0 = 1 from rfl]
  · norm_num [eventsList, jsOrZero_eq]

/-- Witness for C8 (amended): at biweekly income 3 and iteration 4 the
generator picks table entry (3 + 4) mod 10 = 7, the friend repayment. -/
theorem generateRandomEvent_index_witness :
    (1 : ℕ) ≤ 4 ∧
    generateRandomEvent ((3 : ℕ) : ℚ) 4 =
      (eventsList (3 : ℕ)).getD ((3 + 4) % 10) defaultEvent :=
  ⟨by norm_num, (generateRandomEvent_index 3 4).1 (by norm_num)⟩

/-- A round starting with debt 100 (otherwise the sample state). -/
def repaymentState : GameState := { sampleState with debt := 100 }

/-- The state after a normal allocation of 30 to the debt-repayment
category, merged back by the orchestrator. -/
def repaymentAfterAlloc : GameState :=
  submitNormal repaymentState 30 "Debt Repayment" "💳"

lemma repaymentAfterAlloc_debt : repaymentAfterAlloc.debt = 70 := by
  unfold repaymentAfterAlloc submitNormal
  dsimp only
  rw [finishAllocation_debt]
  show (normalSavingsDebt repaymentState 30 "Debt Repayment").2 = 70
  unfold normalSavingsDebt
  dsimp only
  rw [if_pos (rfl : ("Debt Repayment" : String) = "Debt Repayment"),
    if_pos (⟨by norm_num, show (0 : ℚ) < 100 by norm_num⟩ :
      ((30 : ℚ) > 0 ∧ repaymentState.debt > 0)),
    if_neg (show ¬((30 : ℚ) ≥ repaymentState.debt) from by
      show ¬((30 : ℚ) ≥ 100)
      norm_num)]
  show (100 : ℚ) - 30 = 70
  norm_num

lemma repaymentAfterAlloc_postWaterfallDebt : postWaterfallDebt repaymentAfterAlloc = 40 := by
  have hallocs : repaymentAfterAlloc.allocations =
      [("Debt Repayment", ⟨30, "💳"⟩)] := rfl
  have hrep : debtAfterRepayment repaymentAfterAlloc = 40 := by
    unfold debtAfterRepayment
    rw [show getAlloc repaymentAfterAlloc.allocations "Debt Repayment" =
        some ⟨30, "💳"⟩ from rfl]
    dsimp only
    rw [if_pos ⟨by norm_num, by rw [repaymentAfterAlloc_debt]; norm_num⟩,
      repaymentAfterAlloc_debt]
    norm_num
  have hadj : (generateRandomEvent (jsOrZero repaymentAfterAlloc.biweeklyIncome)
      repaymentAfterAlloc.iteration).adjustment = -75 := by
    have hb : jsOrZero repaymentAfterAlloc.biweeklyIncome = ((1500 : ℕ) : ℚ) := by
      rw [jsOrZero_eq]
      show (1500 : ℚ) = ((1500 : ℕ) : ℚ)
      norm_num
    rw [hb, show repaymentAfterAlloc.iteration = 1 from rfl, generateRandomEvent_natCast]
    norm_num [jsOrOne, eventsList, jsOrZero_eq]
  have hpre : preWaterfallBalance repaymentAfterAlloc = 695 := by
    unfold preWaterfallBalance biweeklyFixedCosts
    rw [hadj,
      show repaymentAfterAlloc.currentBalance = 0 from rfl,
      show repaymentAfterAlloc.biweeklyIncome = 1500 from rfl,
      show repaymentAfterAlloc.housingCost = 1200 from rfl,
      show repaymentAfterAlloc.utilityCost = 200 from rfl,
      show repaymentAfterAlloc.allocatedAmount = 0 + 30 from rfl]
    norm_num
  unfold postWaterfallDebt
  rw [hpre, hrep]
  unfold settleWaterfall
  norm_num

/-- C4 (code bug): a normal allocation of 30 to the debt-repayment category
while debt is 100 reduces debt to 70 at allocation time, and the settlement
reduces it again by the recorded allocation, ending at 40 instead of the
single net reduction to 70 that the specification requires. -/
theorem debt_repayment_double_reduction :
    repaymentAfterAlloc.debt = 70 ∧
    (handleNextPeriod repaymentAfterAlloc).debt = 40 ∧
    (handleNextPeriod repaymentAfterAlloc).debt ≠ repaymentState.debt - 30 := by
  have hfinal : (handleNextPeriod repaymentAfterAlloc).debt = 40 := by
    rw [handleNextPeriod_debt, repaymentAfterAlloc_postWaterfallDebt,
      show repaymentAfterAlloc.iteration = 1 from rfl]
    unfold applyMonthlyInterest
    rw [if_neg (by norm_num)]
  refine ⟨repaymentAfterAlloc_debt, hfinal, ?_⟩
  rw [hfinal, show repaymentState.debt = 100 from rfl]
  norm_num
